import Mathlib

/-!
Verification of the AI-powered todo chatbot backend.

This file gives a shallow embedding of the backend's core components —
the recurrence engine (`src/backend/src/utils/recurrence.py`), the
complete-task tool (`src/backend/src/mcp_server/tools/complete_task.py`),
the orchestrator's owner-identifier injection
(`src/backend/src/agent/agent.py`), and the conversation/message services
(`src/backend/src/api/services/`) — and proves the spec's claims about
them.

Datetimes are modelled at day granularity as proleptic-Gregorian calendar
dates: every operation the claims touch (timedelta in whole days,
`replace` of year/month/day, datetime comparison) acts on the date part
and leaves the time of day unchanged.
-/

namespace TodoBot

/-- A proleptic Gregorian calendar date, the date part of a Python
`datetime`.  Fields mirror `datetime.year`, `.month` (1–12) and
`.day` (1–31). -/
structure Date where
  year : Nat
  month : Nat
  day : Nat
deriving DecidableEq, Repr

/-- Gregorian leap-year rule, as used by Python's `calendar` module. -/
def isLeap (y : Nat) : Bool :=
  (y % 4 == 0 && y % 100 != 0) || y % 400 == 0

/-- Number of days in a month, mirroring `calendar.monthrange(y, m)[1]`. -/
def daysInMonth (y m : Nat) : Nat :=
  if m = 2 then (if isLeap y then 29 else 28)
  else if m = 4 ∨ m = 6 ∨ m = 9 ∨ m = 11 then 30
  else 31

/-- Days in the years strictly before year `y` (proleptic Gregorian),
matching Python's `datetime.toordinal` bookkeeping. -/
def daysBeforeYear (y : Nat) : Nat :=
  365 * (y - 1) + (y - 1) / 4 + (y - 1) / 400 - (y - 1) / 100

/-- Days in the months of year `y` strictly before month `m`. -/
def daysBeforeMonth (y m : Nat) : Nat :=
  (List.range (m - 1)).foldl (fun acc i => acc + daysInMonth y (i + 1)) 0

/-- Python's `date.toordinal`: day 1 is 0001-01-01. -/
def toOrdinal (d : Date) : Nat :=
  daysBeforeYear d.year + daysBeforeMonth d.year d.month + d.day

/-- Python's `date.weekday`: 0 = Monday … 6 = Sunday.  Ordinal 1
(0001-01-01) is a Monday. -/
def weekday (d : Date) : Nat :=
  (toOrdinal d + 6) % 7

/-- The calendar successor of a date (one day later). -/
def Date.succDay (d : Date) : Date :=
  if d.day < daysInMonth d.year d.month then ⟨d.year, d.month, d.day + 1⟩
  else if d.month < 12 then ⟨d.year, d.month + 1, 1⟩
  else ⟨d.year + 1, 1, 1⟩

/-- The calendar predecessor of a date (one day earlier). -/
def Date.predDay (d : Date) : Date :=
  if 1 < d.day then ⟨d.year, d.month, d.day - 1⟩
  else if 1 < d.month then ⟨d.year, d.month - 1, daysInMonth d.year (d.month - 1)⟩
  else ⟨d.year - 1, 12, 31⟩

/-- `d + timedelta(days=n)` for a natural `n`. -/
def addDays (d : Date) : Nat → Date
  | 0 => d
  | n + 1 => addDays d.succDay n

/-- `d - timedelta(days=n)` for a natural `n`. -/
def subDays (d : Date) : Nat → Date
  | 0 => d
  | n + 1 => subDays d.predDay n

/-- `d + timedelta(days=z)` for a possibly negative integer `z`. -/
def addDaysZ (d : Date) (z : Int) : Date :=
  if 0 ≤ z then addDays d z.toNat else subDays d (-z).toNat

/-- Chronological order on dates, via the ordinal (Python datetime
comparison restricted to the date part). -/
def dateLe (a b : Date) : Bool :=
  toOrdinal a ≤ toOrdinal b

/-- The one error `calculate_next_due_date` can raise: the `ValueError`
for an invalid recurrence pattern (spec name `InvalidRecurrencePattern`). -/
inductive RecurrenceError where
  | invalidRecurrencePattern
deriving DecidableEq, Repr

/-- Embeds `_calculate_daily_recurrence`: `base_date + timedelta(days=interval)`. -/
def calculate_daily_recurrence (base_date : Date) (interval : Nat) : Date :=
  addDays base_date interval

/-- Embeds `_calculate_weekly_recurrence`.  With an explicit weekday the
source computes `days_ahead = day_of_week - base_date.weekday()`, adds
`7 * interval` when `days_ahead <= 0`, else adds `7 * (interval - 1)`
when `interval > 1`, and returns `base_date + timedelta(days=days_ahead)`;
with no weekday it returns `base_date + timedelta(weeks=interval)`. -/
def calculate_weekly_recurrence (base_date : Date) (interval : Nat)
    (day_of_week : Option Nat) : Date :=
  match day_of_week with
  | some dw =>
    let days_ahead : Int := (dw : Int) - (weekday base_date : Int)
    let days_ahead :=
      if days_ahead ≤ 0 then days_ahead + 7 * (interval : Int)
      else if 1 < interval then days_ahead + 7 * ((interval : Int) - 1)
      else days_ahead
    addDaysZ base_date days_ahead
  | none => addDays base_date (7 * interval)

/-- The `while next_month > 12: next_month -= 12; next_year += 1` loop of
`_calculate_monthly_recurrence`; returns (next_month, next_year). -/
def monthRoll (m y : Nat) : Nat × Nat :=
  if 12 < m then monthRoll (m - 12) (y + 1) else (m, y)
termination_by m

/-- The target day chosen by `_calculate_monthly_recurrence`: the
explicit day of month if given, else the base date's day. -/
def monthlyTargetDay (base_date : Date) (day_of_month : Option Nat) : Nat :=
  match day_of_month with
  | some dm => dm
  | none => base_date.day

/-- Embeds `_calculate_monthly_recurrence`: advance the month by
`interval` rolling the year, take the explicit day of month if given
else the base date's day, and clamp to the month's last day when
`replace` would raise `ValueError` (day outside 1..last). -/
def calculate_monthly_recurrence (base_date : Date) (interval : Nat)
    (day_of_month : Option Nat) : Date :=
  let p := monthRoll (base_date.month + interval) base_date.year
  let target_day := monthlyTargetDay base_date day_of_month
  if 1 ≤ target_day ∧ target_day ≤ daysInMonth p.2 p.1 then
    ⟨p.2, p.1, target_day⟩
  else
    ⟨p.2, p.1, daysInMonth p.2 p.1⟩

/-- Embeds `calculate_next_due_date`.  `now` stands for
`datetime.now(timezone.utc)`, used only when the task has no due date
(base defaults to tomorrow).  The pattern is `Option String` because the
caller passes `task.recurrence_pattern`, which may be `None`; any value
other than the three literals raises `ValueError` (invalid pattern). -/
def calculate_next_due_date (now : Date) (current_due_date : Option Date)
    (recurrence_pattern : Option String) (recurrence_interval : Nat)
    (recurrence_day_of_week : Option Nat) (recurrence_day_of_month : Option Nat) :
    Except RecurrenceError Date :=
  let base_date := match current_due_date with
    | none => addDays now 1
    | some d => d
  if recurrence_pattern = some "daily" then
    .ok (calculate_daily_recurrence base_date recurrence_interval)
  else if recurrence_pattern = some "weekly" then
    .ok (calculate_weekly_recurrence base_date recurrence_interval recurrence_day_of_week)
  else if recurrence_pattern = some "monthly" then
    .ok (calculate_monthly_recurrence base_date recurrence_interval recurrence_day_of_month)
  else
    .error .invalidRecurrencePattern

/-- Embeds `should_create_next_instance`: false when recurrence is
paused; false when an end date exists and `now >= end`; true otherwise. -/
def should_create_next_instance (now : Date) (recurrence_end_date : Option Date)
    (recurrence_active : Bool) : Bool :=
  if !recurrence_active then false
  else
    match recurrence_end_date with
    | some e => if dateLe e now then false else true
    | none => true

/-- Embeds the `Task` SQLModel (`src/backend/src/models/task.py`),
restricted to the fields the tools read or write.  `id` is the database
primary key (autoincrement, always ≥ 1 for stored rows). -/
structure Task where
  id : Nat
  user_id : String
  title : String
  description : Option String
  completed : Bool
  priority : String
  category : Option String
  due_date : Option Date
  is_recurring : Bool
  recurrence_pattern : Option String
  recurrence_interval : Nat
  recurrence_end_date : Option Date
  recurrence_day_of_week : Option Nat
  recurrence_day_of_month : Option Nat
  parent_recurrence_id : Option Nat
  recurrence_active : Bool
deriving DecidableEq, Repr

/-- Python `x or y` on an optional integer: `None` and `0` are falsy. -/
def pyOrNat (x : Option Nat) (y : Nat) : Nat :=
  match x with
  | some p => if p = 0 then y else p
  | none => y

/-- The dictionary returned by `create_next_recurrence_instance`
(`src/backend/src/utils/recurrence.py`), field for field.  `due_date`
is the freshly computed next due date, always present. -/
structure NewTaskData where
  user_id : String
  title : String
  description : Option String
  priority : String
  category : Option String
  completed : Bool
  due_date : Date
  is_recurring : Bool
  recurrence_pattern : Option String
  recurrence_interval : Nat
  recurrence_end_date : Option Date
  recurrence_day_of_week : Option Nat
  recurrence_day_of_month : Option Nat
  parent_recurrence_id : Option Nat
  recurrence_active : Bool
deriving DecidableEq, Repr

/-- Embeds `create_next_recurrence_instance`: computes the next due date
from the completed task's recurrence settings and copies the remaining
fields, with `completed = False`, `recurrence_active = True`, and
`parent_recurrence_id = task.parent_recurrence_id or task.id`.  The
`ValueError` an invalid pattern raises propagates as `.error`. -/
def create_next_recurrence_instance (now : Date) (task : Task) :
    Except RecurrenceError NewTaskData :=
  match calculate_next_due_date now task.due_date task.recurrence_pattern
      task.recurrence_interval task.recurrence_day_of_week
      task.recurrence_day_of_month with
  | .error e => .error e
  | .ok next_due_date =>
    .ok {
      user_id := task.user_id
      title := task.title
      description := task.description
      priority := task.priority
      category := task.category
      completed := false
      due_date := next_due_date
      is_recurring := true
      recurrence_pattern := task.recurrence_pattern
      recurrence_interval := task.recurrence_interval
      recurrence_end_date := task.recurrence_end_date
      recurrence_day_of_week := task.recurrence_day_of_week
      recurrence_day_of_month := task.recurrence_day_of_month
      parent_recurrence_id := some (pyOrNat task.parent_recurrence_id task.id)
      recurrence_active := true }

/-- `Task(**next_task_data)` with the primary key the database assigns. -/
def taskOfNewData (id : Nat) (d : NewTaskData) : Task :=
  { id := id
    user_id := d.user_id
    title := d.title
    description := d.description
    completed := d.completed
    priority := d.priority
    category := d.category
    due_date := some d.due_date
    is_recurring := d.is_recurring
    recurrence_pattern := d.recurrence_pattern
    recurrence_interval := d.recurrence_interval
    recurrence_end_date := d.recurrence_end_date
    recurrence_day_of_week := d.recurrence_day_of_week
    recurrence_day_of_month := d.recurrence_day_of_month
    parent_recurrence_id := d.parent_recurrence_id
    recurrence_active := d.recurrence_active }

/-- Python truthiness of `task.recurrence_pattern`
(`Optional[str]`): `None` and the empty string are falsy. -/
def pyTruthyStr (o : Option String) : Bool :=
  match o with
  | some s => s ≠ ""
  | none => false

/-- The `data` dictionary of a `complete_task` result.  In the
already-completed branch the next-task keys are absent; absence and an
explicit `None` are both modelled as `none`. -/
structure CompleteData where
  task_id : Nat
  status : String
  next_task_id : Option Nat
  next_task_due_date : Option Date
deriving DecidableEq, Repr

/-- The `{success, data, message, error_code}` envelope returned by
`complete_task.execute`. -/
structure CompleteResult where
  success : Bool
  data : Option CompleteData
  message : String
  error_code : Option String
deriving DecidableEq, Repr

/-- The task store is the owner-scoped `tasks` table, rows in insertion
order. -/
abbrev TaskStore := List Task

/-- The primary key autoincrement assigns to the next inserted row:
one more than the largest id present. -/
def freshTaskId (store : TaskStore) : Nat :=
  store.foldr (fun t acc => max t.id acc) 0 + 1

/-- The `WHERE Task.id == task_id AND Task.user_id == user_id` filter of
`complete_task.execute`. -/
def taskMatches (user_id : String) (task_id : Nat) (t : Task) : Bool :=
  t.id == task_id && t.user_id == user_id

/-- ISO-ish rendering of a date for the success message (stands for
`datetime.isoformat`; the exact text is irrelevant to the claims). -/
def dateToString (d : Date) : String :=
  toString d.year ++ "-" ++ toString d.month ++ "-" ++ toString d.day

/-- Embeds `complete_task.execute` as a pure function from the task
store (plus `now`, for the recurrence end-date check) to the new store
and the result envelope.  Steps, mirroring the source: validate
`task_id > 0` (Pydantic `gt=0`); look the task up scoped by owner
(`NOT_FOUND` envelope if absent); return early with success if already
completed; otherwise mark it completed, and if it is recurring with a
truthy pattern and `should_create_next_instance` holds, insert the next
instance built by `create_next_recurrence_instance` — whose failure is
swallowed (completion still succeeds); finally build the message and
envelope. -/
def complete_task_execute (now : Date) (store : TaskStore)
    (user_id : String) (task_id : Nat) : TaskStore × CompleteResult :=
  if task_id = 0 then
    (store, { success := false, data := none,
              message := "Invalid input: task_id must be greater than 0",
              error_code := some "VALIDATION_ERROR" })
  else
    match store.find? (taskMatches user_id task_id) with
    | none =>
      (store, { success := false, data := none,
                message := "Task " ++ toString task_id ++ " not found or access denied",
                error_code := some "NOT_FOUND" })
    | some task =>
      if task.completed then
        (store, { success := true,
                  data := some { task_id := task.id, status := "completed",
                                 next_task_id := none, next_task_due_date := none },
                  message := "Task already completed",
                  error_code := none })
      else
        let task1 : Task := { task with completed := true }
        let store1 := store.map (fun t => if taskMatches user_id task_id t then task1 else t)
        let spawn : TaskStore × Option Nat × Option Date :=
          if task1.is_recurring && pyTruthyStr task1.recurrence_pattern then
            if should_create_next_instance now task1.recurrence_end_date
                task1.recurrence_active then
              match create_next_recurrence_instance now task1 with
              | .ok nd =>
                let nid := freshTaskId store1
                (store1 ++ [taskOfNewData nid nd], some nid, some nd.due_date)
              | .error _ => (store1, none, none)
            else (store1, none, none)
          else (store1, none, none)
        let message :=
          match spawn.2.1 with
          | some nid =>
            "Task completed. Next instance created (task_id=" ++ toString nid ++
              ", due=" ++ (match spawn.2.2 with
                           | some d => dateToString d
                           | none => "None") ++ ")"
          | none =>
            if task1.is_recurring && !task1.recurrence_active then
              "Task completed. Recurrence is paused."
            else if task1.is_recurring && task1.recurrence_end_date.isSome then
              "Task completed. Recurrence has ended."
            else "Task completed successfully"
        (spawn.1,
         { success := true,
           data := some { task_id := task1.id, status := "completed",
                          next_task_id := spawn.2.1,
                          next_task_due_date := spawn.2.2 },
           message := message,
           error_code := none })

/-- A JSON value, as produced by `json.loads` on the model-generated
tool-call arguments.  Objects and arrays are not needed by the tools'
argument schemas. -/
inductive JsonValue where
  | jstr (s : String)
  | jnum (n : Int)
  | jbool (b : Bool)
  | jnull
deriving DecidableEq, Repr

/-- A parsed tool-argument dictionary: keys to JSON values, first
binding wins on lookup (Python dicts have unique keys). -/
abbrev ToolArgs := List (String × JsonValue)

/-- Python dict assignment `d[k] = v`: replace the value in place when
the key exists, else append the binding. -/
def dictSet : ToolArgs → String → JsonValue → ToolArgs
  | [], k, v => [(k, v)]
  | (k1, v1) :: rest, k, v =>
    if k1 = k then (k, v) :: rest else (k1, v1) :: dictSet rest k v

/-- Python dict lookup `d[k]` (first binding with that key). -/
def dictGet : ToolArgs → String → Option JsonValue
  | [], _ => none
  | (k1, v1) :: rest, k => if k1 = k then some v1 else dictGet rest k

/-- Embeds the per-tool-call injection in `TodoAgent.process_message`:
after parsing the model-supplied arguments the orchestrator runs
`tool_args["user_id"] = self.user_id` — `self.user_id` being the
authenticated session's owner — before `execute_tool_call` dispatches
the handler with those arguments. -/
def injectUserId (sessionUserId : String) (modelArgs : ToolArgs) : ToolArgs :=
  dictSet modelArgs "user_id" (.jstr sessionUserId)

/-- The owner identifier the dispatched tool handler actually receives:
the `user_id` entry of the argument dictionary passed to
`execute_tool_call` (the handler is invoked as `tool(**tool_args)`). -/
def executedOwner (sessionUserId : String) (modelArgs : ToolArgs) : Option JsonValue :=
  dictGet (injectUserId sessionUserId modelArgs) "user_id"

/-- Message role, mirroring `MessageRole` (`models/message.py`). -/
inductive MessageRole where
  | user
  | assistant
deriving DecidableEq, Repr

/-- `MessageRole.value`, the string stored in the `role` column. -/
def MessageRole.value : MessageRole → String
  | .user => "user"
  | .assistant => "assistant"

/-- Embeds the `Message` row (`models/message.py`), the fields the chat
flow reads and writes.  `created_at` defaults to the insertion time, so
rows in insertion order are in strictly increasing `created_at` order
within a conversation; the store list below keeps that insertion order
and the timestamp itself is left implicit. -/
structure Message where
  conversation_id : Nat
  user_id : String
  role : MessageRole
  content : String
  detected_language : String
deriving DecidableEq, Repr

/-- The `messages` table, rows in insertion (= chronological) order. -/
abbrev MessageStore := List Message

/-- Embeds `store_message`: insert one row (append-only). -/
def store_message (msgs : MessageStore) (conversation_id : Nat) (user_id : String)
    (role : MessageRole) (content : String) (detected_language : String) :
    MessageStore :=
  msgs ++ [{ conversation_id := conversation_id, user_id := user_id, role := role,
             content := content, detected_language := detected_language }]

/-- The OpenAI-format projection `{"role": msg.role.value, "content": msg.content}`. -/
def msgProj (m : Message) : String × String :=
  (m.role.value, m.content)

/-- Embeds `get_recent_messages`: select the conversation's rows ordered
by `created_at` descending (list reversal, since the store is in
ascending `created_at` order), limit to `count`, reverse back to
chronological order, and project to role/content pairs. -/
def get_recent_messages (msgs : MessageStore) (conversation_id : Nat)
    (count : Nat) : List (String × String) :=
  let selected := (msgs.filter (fun m => m.conversation_id == conversation_id)).reverse.take count
  let chronological := selected.reverse
  chronological.map msgProj

/-- Embeds the `Conversation` row (`models/conversation.py`): owner plus
primary key (timestamps are not read by the core flow). -/
structure Conversation where
  id : Nat
  user_id : String
deriving DecidableEq, Repr

/-- The `conversations` table, rows in insertion order. -/
abbrev ConvStore := List Conversation

/-- Errors the chat flow can raise: the ownership `HTTPException(403)`. -/
inductive ChatError where
  | forbidden
deriving DecidableEq, Repr

/-- Primary key autoincrement for the conversations table. -/
def freshConvId (convs : ConvStore) : Nat :=
  convs.foldr (fun c acc => max c.id acc) 0 + 1

/-- Embeds `create_conversation`: insert a new row for the user and
return it. -/
def create_conversation (convs : ConvStore) (user_id : String) :
    ConvStore × Conversation :=
  let conv : Conversation := { id := freshConvId convs, user_id := user_id }
  (convs ++ [conv], conv)

/-- Embeds `get_conversation`: select by id alone; `None` when absent;
`HTTPException(403)` when the row belongs to a different user; the row
otherwise. -/
def get_conversation (convs : ConvStore) (conversation_id : Nat)
    (user_id : String) : Except ChatError (Option Conversation) :=
  match convs.find? (fun c => c.id == conversation_id) with
  | none => .ok none
  | some conversation =>
    if conversation.user_id ≠ user_id then .error .forbidden
    else .ok (some conversation)

/-- Embeds `get_or_create_conversation`: with a truthy id (`if
conversation_id:` — `None` and `0` are falsy), fetch it, propagating
`Forbidden`, and fall through to creating a new conversation when it
does not exist; otherwise create directly. -/
def get_or_create_conversation (convs : ConvStore) (user_id : String)
    (conversation_id : Option Nat) : Except ChatError (ConvStore × Conversation) :=
  match conversation_id with
  | some cid =>
    if cid = 0 then .ok (create_conversation convs user_id)
    else
      match get_conversation convs cid user_id with
      | .error e => .error e
      | .ok (some conversation) => .ok (convs, conversation)
      | .ok none => .ok (create_conversation convs user_id)
  | none => .ok (create_conversation convs user_id)

/-- The agent's result dictionary (`TodoAgent.process_message` never
raises: its top-level handler converts any exception into a
`success=false` apology). -/
structure AgentResult where
  response : String
  tool_calls : List String
  success : Bool
deriving DecidableEq, Repr

/-- The durable state a chat turn touches. -/
structure ChatState where
  convs : ConvStore
  msgs : MessageStore
deriving DecidableEq, Repr

/-- The `{conversation_id, response, tool_calls, success}` dictionary a
chat turn returns. -/
structure ChatResponse where
  conversation_id : Nat
  response : String
  tool_calls : List String
  success : Bool
deriving DecidableEq, Repr

/-- Embeds `process_chat_message`.  The language-model agent is an
external collaborator, passed in as an oracle from the context history
to its result.  Step order mirrors the source: get-or-create the
conversation (a `Forbidden` raised here aborts the turn before any
write), store the user message, load recent history, run the agent on
the history minus the just-stored message, store the assistant message,
and build the response.  The returned state is the durable state after
the turn (each write commits individually). -/
def process_chat_message (st : ChatState) (user_id : String) (message : String)
    (conversation_id : Option Nat) (max_context_messages : Nat)
    (detected_language : String)
    (agent : List (String × String) → AgentResult) :
    ChatState × Except ChatError ChatResponse :=
  match get_or_create_conversation st.convs user_id conversation_id with
  | .error e => (st, .error e)
  | .ok (convs1, conversation) =>
    let msgs1 := store_message st.msgs conversation.id user_id .user message
      detected_language
    let conversation_history := get_recent_messages msgs1 conversation.id
      max_context_messages
    let agent_result := agent conversation_history.dropLast
    let msgs2 := store_message msgs1 conversation.id user_id .assistant
      agent_result.response detected_language
    ({ convs := convs1, msgs := msgs2 },
     .ok { conversation_id := conversation.id,
           response := agent_result.response,
           tool_calls := agent_result.tool_calls,
           success := agent_result.success })

/-! ## Concrete witness data -/

/-- A pending non-recurring task, for the C5 witness. -/
def taskC5 : Task :=
  { id := 4, user_id := "bob", title := "file taxes", description := none,
    completed := false, priority := "high", category := none,
    due_date := some ⟨2026, 4, 15⟩, is_recurring := false,
    recurrence_pattern := none, recurrence_interval := 1,
    recurrence_end_date := none, recurrence_day_of_week := none,
    recurrence_day_of_month := none, parent_recurrence_id := none,
    recurrence_active := true }

/-- The spec's end-to-end example task #7 (daily, interval 1, due
Jan 10, active, no end date), just completed, for the C6 witness. -/
def taskC6 : Task :=
  { id := 7, user_id := "carol", title := "standup", description := none,
    completed := true, priority := "medium", category := none,
    due_date := some ⟨2026, 1, 10⟩, is_recurring := true,
    recurrence_pattern := some "daily", recurrence_interval := 1,
    recurrence_end_date := none, recurrence_day_of_week := none,
    recurrence_day_of_month := none, parent_recurrence_id := none,
    recurrence_active := true }

/-- The instance data spawned from `taskC6`: pending, due Jan 11,
linked back to #7. -/
def ndC6 : NewTaskData :=
  { user_id := "carol", title := "standup", description := none,
    priority := "medium", category := none, completed := false,
    due_date := ⟨2026, 1, 11⟩, is_recurring := true,
    recurrence_pattern := some "daily", recurrence_interval := 1,
    recurrence_end_date := none, recurrence_day_of_week := none,
    recurrence_day_of_month := none, parent_recurrence_id := some 7,
    recurrence_active := true }

/-- An already-completed task that is recurring and active, for the C10
witness. -/
def taskC10 : Task :=
  { id := 3, user_id := "alice", title := "water plants", description := none,
    completed := true, priority := "medium", category := none,
    due_date := some ⟨2026, 1, 10⟩, is_recurring := true,
    recurrence_pattern := some "daily", recurrence_interval := 1,
    recurrence_end_date := none, recurrence_day_of_week := none,
    recurrence_day_of_month := none, parent_recurrence_id := none,
    recurrence_active := true }

/-- A two-message conversation history, for the C8 witness. -/
def msgsC8 : MessageStore :=
  [{ conversation_id := 1, user_id := "dana", role := .user, content := "hello",
     detected_language := "en" },
   { conversation_id := 1, user_id := "dana", role := .assistant, content := "hi",
     detected_language := "en" }]

/-- A store holding one conversation owned by alice, for the C7 witness. -/
def stC7 : ChatState :=
  { convs := [{ id := 1, user_id := "alice" }], msgs := [] }

/-- A trivial language-model oracle, for the C7 witness. -/
def agentC7 : List (String × String) → AgentResult :=
  fun _ => { response := "ok", tool_calls := [], success := true }

/-! ## Lemmas -/

/-- Setting a key then reading it back yields the value just written. -/
theorem dictGet_dictSet (d : ToolArgs) (k : String) (v : JsonValue) :
    dictGet (dictSet d k v) k = some v := by
  induction d with
  | nil => simp [dictSet, dictGet]
  | cons h t ih =>
    obtain ⟨k1, v1⟩ := h
    by_cases hk : k1 = k <;> simp [dictSet, dictGet, hk, ih]

/-! ## Claims -/

/-- C1: for every tool call requested by the language model, the
orchestrator overwrites the `user_id` argument with the authenticated
session's owner before dispatching the handler, so the executed owner
identifier is always the session owner and never depends on any
model-supplied `user_id`: two runs that differ only in the
model-supplied arguments execute the tool with the same owner. -/
theorem claim_C1_owner_injection (sessionUserId : String) (a1 a2 : ToolArgs) :
    executedOwner sessionUserId a1 = some (.jstr sessionUserId) ∧
    executedOwner sessionUserId a1 = executedOwner sessionUserId a2 := by
  unfold executedOwner injectUserId
  rw [dictGet_dictSet, dictGet_dictSet]
  exact ⟨rfl, rfl⟩

/-- C4: `should_create_next_instance` returns false when the recurrence
is paused, false when an end date is set and now is at or past it, and
true when the recurrence is active and no end date has been reached. -/
theorem claim_C4_should_spawn (now e : Date) (ed : Option Date) (active : Bool) :
    (active = false → should_create_next_instance now ed active = false) ∧
    (dateLe e now = true → should_create_next_instance now (some e) active = false) ∧
    (active = true → (ed = none ∨ (∃ d, ed = some d ∧ dateLe d now = false)) →
      should_create_next_instance now ed active = true) := by
  refine ⟨?_, ?_, ?_⟩
  · intro h; subst h; simp [should_create_next_instance]
  · intro h; cases active <;> simp [should_create_next_instance, h]
  · rintro rfl (rfl | ⟨d, rfl, hd⟩)
    · simp [should_create_next_instance]
    · simp [should_create_next_instance, hd]

/-- Witness for C4 at the spec's three probe points: a past end date
with an active recurrence, no end date with a paused recurrence, and a
future end date with an active recurrence. -/
theorem claim_C4_should_spawn_witness :
    should_create_next_instance ⟨2026, 1, 15⟩ (some ⟨2026, 1, 1⟩) true = false ∧
    should_create_next_instance ⟨2026, 1, 15⟩ none false = false ∧
    should_create_next_instance ⟨2026, 1, 15⟩ (some ⟨2026, 2, 1⟩) true = true := by
  refine ⟨?_, ?_, ?_⟩
  · exact (claim_C4_should_spawn ⟨2026, 1, 15⟩ ⟨2026, 1, 1⟩ (some ⟨2026, 1, 1⟩) true).2.1
      (by decide)
  · exact (claim_C4_should_spawn ⟨2026, 1, 15⟩ ⟨2026, 1, 1⟩ none false).1 rfl
  · exact (claim_C4_should_spawn ⟨2026, 1, 15⟩ ⟨2026, 1, 1⟩ (some ⟨2026, 2, 1⟩) true).2.2 rfl
      (Or.inr ⟨⟨2026, 2, 1⟩, rfl, by decide⟩)

/-- C9: `calculate_next_due_date` raises the invalid-pattern error for
every pattern string other than the three valid literals, and for the
three valid patterns it always returns a date (never that error). -/
theorem claim_C9_pattern_validation (now : Date) (due : Option Date) (s : String)
    (i : Nat) (dw dm : Option Nat) :
    (s ≠ "daily" ∧ s ≠ "weekly" ∧ s ≠ "monthly" →
      calculate_next_due_date now due (some s) i dw dm =
        .error .invalidRecurrencePattern) ∧
    (s = "daily" ∨ s = "weekly" ∨ s = "monthly" →
      ∃ d, calculate_next_due_date now due (some s) i dw dm = .ok d) := by
  constructor
  · rintro ⟨h1, h2, h3⟩
    simp [calculate_next_due_date, h1, h2, h3]
  · rintro (rfl | rfl | rfl) <;> simp [calculate_next_due_date]

/-- Witness for C9: the pattern `"yearly"` raises the invalid-pattern
error, while `"daily"` yields a date. -/
theorem claim_C9_pattern_validation_witness :
    calculate_next_due_date ⟨2026, 1, 1⟩ none (some "yearly") 1 none none =
      .error .invalidRecurrencePattern ∧
    ∃ d, calculate_next_due_date ⟨2026, 1, 1⟩ none (some "daily") 1 none none = .ok d := by
  constructor
  · exact (claim_C9_pattern_validation ⟨2026, 1, 1⟩ none "yearly" 1 none none).1
      ⟨by decide, by decide, by decide⟩
  · exact (claim_C9_pattern_validation ⟨2026, 1, 1⟩ none "daily" 1 none none).2
      (Or.inl rfl)

/-- Adding a nonnegative integer number of days is natural-number
day addition. -/
theorem addDaysZ_natCast (d : Date) (n : Nat) : addDaysZ d (n : Int) = addDays d n := by
  simp [addDaysZ]

/-- C2: for weekly recurrence with an explicit weekday `D`, when the
base date is itself day `D` and the interval is 2 the result is exactly
14 days later; in general a forward offset ≤ 0 makes the result the base
plus the offset plus `interval` whole weeks, and a positive forward
offset with `interval > 1` makes it the base plus the offset plus
`interval − 1` extra weeks. -/
theorem claim_C2_weekly_interval (base : Date) (D : Nat) (interval : Nat) :
    (weekday base = D → calculate_weekly_recurrence base 2 (some D) = addDays base 14) ∧
    ((D : Int) - (weekday base : Int) ≤ 0 →
      calculate_weekly_recurrence base interval (some D) =
        addDaysZ base ((D : Int) - (weekday base : Int) + 7 * (interval : Int))) ∧
    (0 < (D : Int) - (weekday base : Int) → 1 < interval →
      calculate_weekly_recurrence base interval (some D) =
        addDaysZ base ((D : Int) - (weekday base : Int) + 7 * ((interval : Int) - 1))) := by
  refine ⟨?_, ?_, ?_⟩
  · intro h
    have h0 : (D : Int) - (weekday base : Int) = 0 := by rw [h, sub_self]
    have : calculate_weekly_recurrence base 2 (some D) = addDaysZ base (0 + 7 * (2 : Int)) := by
      simp only [calculate_weekly_recurrence, h0]
      norm_num
    rw [this]
    norm_num
    have h14 : ((14 : Nat) : Int) = (14 : Int) := by norm_num
    rw [← h14, addDaysZ_natCast]
  · intro h
    simp only [calculate_weekly_recurrence, if_pos h]
  · intro h hi
    simp only [calculate_weekly_recurrence, if_neg (not_le.mpr h), if_pos hi]

/-- Witness for C2: 2026-10-12 is a Monday (weekday 0); weekly
recurrence targeting Monday with interval 2 lands 14 days later. -/
theorem claim_C2_weekly_interval_witness :
    weekday ⟨2026, 10, 12⟩ = 0 ∧
    calculate_weekly_recurrence ⟨2026, 10, 12⟩ 2 (some 0) = addDays ⟨2026, 10, 12⟩ 14 := by
  constructor
  · decide
  · exact (claim_C2_weekly_interval ⟨2026, 10, 12⟩ 0 2).1 (by decide)

/-- The month-rolling loop keeps the total month count and lands in
1..12 when started at 1 or above. -/
theorem monthRoll_spec (m y : Nat) (h : 1 ≤ m) :
    1 ≤ (monthRoll m y).1 ∧ (monthRoll m y).1 ≤ 12 ∧
    (monthRoll m y).1 + 12 * (monthRoll m y).2 = m + 12 * y := by
  induction m using Nat.strong_induction_on generalizing y with
  | _ m ih =>
    rw [monthRoll]
    by_cases h12 : 12 < m
    · simp only [if_pos h12]
      have hrec := ih (m - 12) (by omega) (y + 1) (by omega)
      refine ⟨hrec.1, hrec.2.1, ?_⟩
      rw [hrec.2.2]; omega
    · simp only [if_neg h12]
      exact ⟨h, by omega, trivial⟩

/-- Every month has at least one day. -/
theorem daysInMonth_pos (y m : Nat) : 1 ≤ daysInMonth y m := by
  unfold daysInMonth
  split_ifs <;> omega

/-- C3: monthly recurrence advances the month count by exactly
`interval` (year rolling on overflow, the resulting month in 1..12),
clamps to the last valid day of the resulting month whenever the target
day does not exist there, and always returns a valid calendar day
(never raises). -/
theorem claim_C3_monthly_clamp (base : Date) (interval : Nat) (dom : Option Nat)
    (hm : 1 ≤ base.month) :
    ((calculate_monthly_recurrence base interval dom).month +
        12 * (calculate_monthly_recurrence base interval dom).year =
      base.month + interval + 12 * base.year) ∧
    (1 ≤ (calculate_monthly_recurrence base interval dom).month ∧
      (calculate_monthly_recurrence base interval dom).month ≤ 12) ∧
    (¬(1 ≤ monthlyTargetDay base dom ∧
        monthlyTargetDay base dom ≤
          daysInMonth (calculate_monthly_recurrence base interval dom).year
            (calculate_monthly_recurrence base interval dom).month) →
      (calculate_monthly_recurrence base interval dom).day =
        daysInMonth (calculate_monthly_recurrence base interval dom).year
          (calculate_monthly_recurrence base interval dom).month) ∧
    (1 ≤ (calculate_monthly_recurrence base interval dom).day ∧
      (calculate_monthly_recurrence base interval dom).day ≤
        daysInMonth (calculate_monthly_recurrence base interval dom).year
          (calculate_monthly_recurrence base interval dom).month) := by
  have hroll := monthRoll_spec (base.month + interval) base.year (by omega)
  have hyear : (calculate_monthly_recurrence base interval dom).year =
      (monthRoll (base.month + interval) base.year).2 := by
    simp only [calculate_monthly_recurrence]
    split_ifs <;> rfl
  have hmonth : (calculate_monthly_recurrence base interval dom).month =
      (monthRoll (base.month + interval) base.year).1 := by
    simp only [calculate_monthly_recurrence]
    split_ifs <;> rfl
  refine ⟨?_, ⟨?_, ?_⟩, ?_, ?_⟩
  · rw [hyear, hmonth]; omega
  · rw [hmonth]; exact hroll.1
  · rw [hmonth]; exact hroll.2.1
  · intro hbad
    rw [hyear, hmonth] at hbad ⊢
    simp only [calculate_monthly_recurrence]
    rw [if_neg hbad]
  · rw [hyear, hmonth]
    simp only [calculate_monthly_recurrence]
    split_ifs with hok
    · exact ⟨hok.1, hok.2⟩
    · exact ⟨daysInMonth_pos _ _, le_refl _⟩

/-- Witness for C3 at the spec's example: Jan 31 advancing one month
with target day 31 lands in February, whose last day (28 in 2025) is
returned. -/
theorem claim_C3_monthly_clamp_witness :
    (calculate_monthly_recurrence ⟨2025, 1, 31⟩ 1 (some 31)).month +
        12 * (calculate_monthly_recurrence ⟨2025, 1, 31⟩ 1 (some 31)).year =
      1 + 1 + 12 * 2025 ∧
    (calculate_monthly_recurrence ⟨2025, 1, 31⟩ 1 (some 31)).day =
      daysInMonth (calculate_monthly_recurrence ⟨2025, 1, 31⟩ 1 (some 31)).year
        (calculate_monthly_recurrence ⟨2025, 1, 31⟩ 1 (some 31)).month := by
  have h := claim_C3_monthly_clamp ⟨2025, 1, 31⟩ 1 (some 31) (by decide)
  refine ⟨h.1, h.2.2.1 ?_⟩
  simp [calculate_monthly_recurrence, monthRoll, monthlyTargetDay, daysInMonth, isLeap]

/-- C6: `create_next_recurrence_instance` links the spawned instance to
the completed task's existing parent link when it carries one (a real
task id, hence nonzero), else to the completed task's own id — so every
instance in a chain points at the same root; the new instance is not
completed, and its due date is the next occurrence computed from the
completed task's recurrence settings. -/
theorem claim_C6_spawned_link (now : Date) (task : Task) (nd : NewTaskData)
    (hok : create_next_recurrence_instance now task = .ok nd)
    (hpar : ∀ p, task.parent_recurrence_id = some p → 0 < p) :
    nd.parent_recurrence_id = some (task.parent_recurrence_id.getD task.id) ∧
    nd.completed = false ∧
    calculate_next_due_date now task.due_date task.recurrence_pattern
      task.recurrence_interval task.recurrence_day_of_week
      task.recurrence_day_of_month = .ok nd.due_date := by
  unfold create_next_recurrence_instance at hok
  cases hcalc : calculate_next_due_date now task.due_date task.recurrence_pattern
      task.recurrence_interval task.recurrence_day_of_week
      task.recurrence_day_of_month with
  | error e => rw [hcalc] at hok; cases hok
  | ok d =>
    rw [hcalc] at hok
    cases hok
    refine ⟨?_, rfl, rfl⟩
    cases hp : task.parent_recurrence_id with
    | none => simp [pyOrNat, hp]
    | some p =>
      have := hpar p hp
      simp only [pyOrNat, hp, Option.getD_some]
      rw [if_neg (by omega)]

/-- Witness for C6: the spec's end-to-end example, task #7, daily,
interval 1, due Jan 10, no parent link — the spawned data links back to
#7 itself, is pending, and is due Jan 11. -/
theorem claim_C6_spawned_link_witness :
    (ndC6).parent_recurrence_id = some ((taskC6.parent_recurrence_id).getD taskC6.id) ∧
    (ndC6).completed = false ∧
    calculate_next_due_date ⟨2026, 1, 10⟩ taskC6.due_date taskC6.recurrence_pattern
      taskC6.recurrence_interval taskC6.recurrence_day_of_week
      taskC6.recurrence_day_of_month = .ok (ndC6).due_date :=
  claim_C6_spawned_link ⟨2026, 1, 10⟩ taskC6 ndC6 rfl
    (fun p hp => by cases hp)

/-- C10: completing an already-completed task is idempotent at the tool
interface: a success envelope with message "Task already completed",
the store untouched, and no spawned instance (the early return precedes
all recurrence handling, so this holds even for an active recurring
task). -/
theorem claim_C10_complete_idempotent (now : Date) (store : TaskStore) (u : String)
    (tid : Nat) (task : Task)
    (htid : tid ≠ 0)
    (hfind : store.find? (taskMatches u tid) = some task)
    (hc : task.completed = true) :
    complete_task_execute now store u tid =
      (store, { success := true,
                data := some { task_id := task.id, status := "completed",
                               next_task_id := none, next_task_due_date := none },
                message := "Task already completed", error_code := none }) := by
  simp [complete_task_execute, htid, hfind, hc]

/-- Witness for C10: a completed task that is recurring and active —
completing it again touches nothing and spawns nothing. -/
theorem claim_C10_complete_idempotent_witness :
    complete_task_execute ⟨2026, 1, 15⟩ [taskC10] "alice" 3 =
      ([taskC10], { success := true,
                    data := some { task_id := taskC10.id, status := "completed",
                                   next_task_id := none, next_task_due_date := none },
                    message := "Task already completed", error_code := none }) :=
  claim_C10_complete_idempotent ⟨2026, 1, 15⟩ [taskC10] "alice" 3 taskC10
    (by decide) (by decide) rfl

/-- C5: completing a non-recurring task never spawns a next instance:
the store keeps the same number of rows (the completed row is updated in
place, nothing inserted) and the result's next-task fields are `none`. -/
theorem claim_C5_nonrecurring_no_spawn (now : Date) (store : TaskStore) (u : String)
    (tid : Nat) (task : Task)
    (htid : tid ≠ 0)
    (hfind : store.find? (taskMatches u tid) = some task)
    (hnc : task.completed = false)
    (hnr : task.is_recurring = false) :
    ((complete_task_execute now store u tid).1.length = store.length) ∧
    ((complete_task_execute now store u tid).2.data =
      some { task_id := task.id, status := "completed",
             next_task_id := none, next_task_due_date := none }) := by
  simp [complete_task_execute, htid, hfind, hnc, hnr]

/-- Witness for C5: completing a pending non-recurring task leaves one
row in the store and reports no spawned instance. -/
theorem claim_C5_nonrecurring_no_spawn_witness :
    ((complete_task_execute ⟨2026, 1, 15⟩ [taskC5] "bob" 4).1.length = [taskC5].length) ∧
    ((complete_task_execute ⟨2026, 1, 15⟩ [taskC5] "bob" 4).2.data =
      some { task_id := taskC5.id, status := "completed",
             next_task_id := none, next_task_due_date := none }) :=
  claim_C5_nonrecurring_no_spawn ⟨2026, 1, 15⟩ [taskC5] "bob" 4 taskC5
    (by decide) (by decide) rfl rfl

/-- Reversing, taking `n`, and reversing back yields the length-`n`
suffix. -/
theorem reverse_take_reverse {α : Type} (l : List α) (n : Nat) :
    (l.reverse.take n).reverse = l.drop (l.length - n) := by
  rw [List.reverse_take, List.reverse_reverse, List.length_reverse]

/-- C8: `get_recent_messages` returns exactly the suffix of the
conversation's chronological message sequence of length at most `count`
— the most recent `count` messages in ascending order with role,
content and relative order preserved — and appending a message via
`store_message` then retrieving round-trips it as the final entry, the
earlier entries keeping their order. -/
theorem claim_C8_recent_messages (msgs : MessageStore) (cid : Nat) (count : Nat)
    (u : String) (r : MessageRole) (c : String) (lang : String) :
    (get_recent_messages msgs cid count =
      ((msgs.filter (fun m => m.conversation_id == cid)).map msgProj).drop
        ((msgs.filter (fun m => m.conversation_id == cid)).length - count)) ∧
    (1 ≤ count →
      get_recent_messages (store_message msgs cid u r c lang) cid count =
        get_recent_messages msgs cid (count - 1) ++ [(r.value, c)]) := by
  constructor
  · simp only [get_recent_messages]
    rw [reverse_take_reverse, List.map_drop]
  · intro hcount
    obtain ⟨k, rfl⟩ : ∃ k, count = k + 1 :=
      ⟨count - 1, by omega⟩
    simp only [get_recent_messages, store_message, List.filter_append]
    simp [msgProj, List.reverse_append]

/-- C7: a chat turn supplying a conversation id owned by a different
user fails with `Forbidden` leaving the durable state — in particular
every message list — untouched, while a chat turn supplying an id that
matches no conversation silently creates a fresh conversation owned by
the requester and succeeds. -/
theorem claim_C7_conversation_ownership (st : ChatState) (u msg : String) (cid : Nat)
    (maxc : Nat) (lang : String) (agent : List (String × String) → AgentResult)
    (c : Conversation) (hcid : cid ≠ 0) :
    (st.convs.find? (fun x => x.id == cid) = some c → c.user_id ≠ u →
      process_chat_message st u msg (some cid) maxc lang agent = (st, .error .forbidden)) ∧
    (st.convs.find? (fun x => x.id == cid) = none →
      ∃ resp, (process_chat_message st u msg (some cid) maxc lang agent).2 = .ok resp ∧
        (process_chat_message st u msg (some cid) maxc lang agent).1.convs =
          st.convs ++ [{ id := freshConvId st.convs, user_id := u }] ∧
        resp.conversation_id = freshConvId st.convs) := by
  constructor
  · intro hfind hne
    simp [process_chat_message, get_or_create_conversation, get_conversation,
      hcid, hfind, hne]
  · intro hfind
    simp only [process_chat_message, get_or_create_conversation, get_conversation,
      hcid, hfind, if_neg hcid, create_conversation]
    exact ⟨_, rfl, rfl, rfl⟩

/-- Witness for C8 on a concrete two-message history: the retrieval
equals the chronological suffix, and appending a user message then
retrieving two messages returns it last, after the previous message. -/
theorem claim_C8_recent_messages_witness :
    (get_recent_messages msgsC8 1 2 =
      ((msgsC8.filter (fun m => m.conversation_id == 1)).map msgProj).drop
        ((msgsC8.filter (fun m => m.conversation_id == 1)).length - 2)) ∧
    (get_recent_messages (store_message msgsC8 1 "dana" .user "add milk" "en") 1 2 =
      get_recent_messages msgsC8 1 (2 - 1) ++ [(MessageRole.user.value, "add milk")]) :=
  ⟨(claim_C8_recent_messages msgsC8 1 2 "dana" .user "add milk" "en").1,
   (claim_C8_recent_messages msgsC8 1 2 "dana" .user "add milk" "en").2 (by decide)⟩

/-- Witness for C7: bob requesting alice's conversation #1 is rejected
with no state change, while bob requesting the nonexistent id 2 gets a
fresh conversation of his own. -/
theorem claim_C7_conversation_ownership_witness :
    (process_chat_message stC7 "bob" "hi" (some 1) 20 "en" agentC7 =
      (stC7, .error .forbidden)) ∧
    (∃ resp, (process_chat_message stC7 "bob" "hi" (some 2) 20 "en" agentC7).2 = .ok resp ∧
      (process_chat_message stC7 "bob" "hi" (some 2) 20 "en" agentC7).1.convs =
        stC7.convs ++ [{ id := freshConvId stC7.convs, user_id := "bob" }] ∧
      resp.conversation_id = freshConvId stC7.convs) :=
  ⟨(claim_C7_conversation_ownership stC7 "bob" "hi" 1 20 "en" agentC7
      ⟨1, "alice"⟩ (by decide)).1 (by decide) (by decide),
   (claim_C7_conversation_ownership stC7 "bob" "hi" 2 20 "en" agentC7
      ⟨1, "alice"⟩ (by decide)).2 (by decide)⟩

end TodoBot
